import Mathlib

/-!
Shallow embedding of the hand-to-object directional guidance engine of
`src/Backend Python Files/main.py` (function `hand_to_object_finder`,
lines 154-279).  The collaborator models are opaque inference services, so
their outputs are taken as inputs of the embedded function: the YOLO
detections (already label-resolved and int-converted, lines 179-187), the
cosine-similarity scores for the retained labels (line 198), the normalized
wrist coordinate of each detected hand (lines 216-219), and the depth map
(line 175).  Python floats are modelled as real numbers, Python ints as
integers; the `try/except` wrapper (lines 156, 276-279) is modelled by the
partiality of the numpy depth-map indexing, the only fallible operation the
embedded fragment performs.
-/

namespace Spectra

/-- Python's `math.atan2 y x` on reals, with the convention
`atan2 0 0 = 0` (used at line 229 of main.py). -/
noncomputable def atan2 (y x : ℝ) : ℝ :=
  if 0 < x then Real.arctan (y / x)
  else if x < 0 then
    (if 0 ≤ y then Real.arctan (y / x) + Real.pi else Real.arctan (y / x) - Real.pi)
  else if 0 < y then Real.pi / 2
  else if y < 0 then -(Real.pi / 2)
  else 0

/-- Python's built-in `round` (line 237): nearest integer, ties to the even
neighbour (banker's rounding). -/
noncomputable def pyRound (r : ℝ) : ℤ :=
  if Int.fract r = 1 / 2 then (if ⌊r⌋ % 2 = 0 then ⌊r⌋ else ⌊r⌋ + 1) else round r

/-- Python's `int()` applied to a float (lines 221-222): truncation toward
zero. -/
noncomputable def truncInt (r : ℝ) : ℤ :=
  if 0 ≤ r then ⌊r⌋ else ⌈r⌉

/-- The 8-way compass labels, index 0 = "directly right", proceeding
counter-clockwise in 45-degree steps (lines 159-160). -/
def directions : List String :=
  ["directly right", "up and right", "directly up", "up and left",
   "directly left", "down and left", "directly down", "down and right"]

/-- One YOLO detection after label resolution and `map(int, box.xyxy[0])`
(lines 180-187): `label = model.names[int(box.cls)]`,
`confidence = float(box.conf)`, box corners as Python ints. -/
structure YoloBox where
  label : String
  confidence : ℝ
  x1 : ℤ
  y1 : ℤ
  x2 : ℤ
  y2 : ℤ

/-- Python's `str.lower()` (line 183), modelled character-wise over the
string's data (the detector's labels are ASCII). -/
def lowerAscii (s : String) : String :=
  ⟨s.data.map Char.toLower⟩

/-- The person filter (lines 179-187): keep every detection whose lowered
label is not "person". -/
def detected_objects (yolo_boxes : List YoloBox) : List YoloBox :=
  yolo_boxes.filter (fun b => !(lowerAscii b.label == "person"))

/-- Head of `sorted(zip(cosine_scores, detected_objects), reverse=True,
key=lambda x: x[0])` (lines 199-202): Python's sort is stable and
`reverse=True` keeps the original order of equal keys, so the first element
of the ranked list is the pair with the greatest score, earliest position
among ties. -/
noncomputable def rankedHead : List (ℝ × YoloBox) → Option (ℝ × YoloBox)
  | [] => none
  | p :: ps => some (ps.foldl (fun best q => if best.1 < q.1 then q else best) p)

/-- `object_center_x = (x1 + x2) // 2` (line 209); Python `//` is floor
division. -/
def obj_center_x (b : YoloBox) : ℤ :=
  Int.fdiv (b.x1 + b.x2) 2

/-- `object_center_y = (y1 + y2) // 2` (line 210). -/
def obj_center_y (b : YoloBox) : ℤ :=
  Int.fdiv (b.y1 + b.y2) 2

/-- `hand_x = min(max(0, int(wrist.x * image_width)), image_width - 1)`
(line 221). -/
noncomputable def hand_pixel_x (image_width : ℕ) (wx : ℝ) : ℤ :=
  min (max 0 (truncInt (wx * (image_width : ℝ)))) ((image_width : ℤ) - 1)

/-- `hand_y = min(max(0, int(wrist.y * image_height)), image_height - 1)`
(line 222). -/
noncomputable def hand_pixel_y (image_height : ℕ) (wy : ℝ) : ℤ :=
  min (max 0 (truncInt (wy * (image_height : ℝ)))) ((image_height : ℤ) - 1)

/-- Lines 229-244: `angle_radians = atan2(-dy, dx)`,
`angle_index = round(angle_radians / (pi / 4))`,
`final_angle_index = (int(angle_index) + 8) % 8`.  Python `%` with a
positive divisor agrees with `Int.emod`. -/
noncomputable def final_angle_index (dx dy : ℤ) : ℤ :=
  (pyRound (atan2 (-(dy : ℝ)) (dx : ℝ) / (Real.pi / 4)) + 8) % 8

/-- `pixel_distance = math.sqrt(dx**2 + dy**2)` (line 253). -/
noncomputable def pixel_distance (dx dy : ℤ) : ℝ :=
  Real.sqrt ((dx : ℝ) ^ 2 + (dy : ℝ) ^ 2)

/-- The depth map `np.array(depth_result['depth'])` (line 175): a dense
2-D array of relative depth samples. -/
structure DepthMap where
  rows : ℕ
  cols : ℕ
  data : ℕ → ℕ → ℝ

/-- numpy 2-D integer indexing `depth_map[i, j]` (lines 248-249): an index
in `[0, n)` is used as is, one in `[-n, 0)` wraps to `n + i`, anything else
raises `IndexError` (modelled as `none`, caught by the function's
`except` block). -/
def DepthMap.get (m : DepthMap) (i j : ℤ) : Option ℝ :=
  if 0 ≤ i ∧ i < (m.rows : ℤ) then
    (if 0 ≤ j ∧ j < (m.cols : ℤ) then some (m.data i.toNat j.toNat)
     else if -(m.cols : ℤ) ≤ j ∧ j < 0 then some (m.data i.toNat (j + m.cols).toNat)
     else none)
  else if -(m.rows : ℤ) ≤ i ∧ i < 0 then
    (if 0 ≤ j ∧ j < (m.cols : ℤ) then some (m.data (i + m.rows).toNat j.toNat)
     else if -(m.cols : ℤ) ≤ j ∧ j < 0 then some (m.data (i + m.rows).toNat (j + m.cols).toNat)
     else none)
  else none

/-- The final three-way classification (lines 259-274) with the hard-coded
thresholds `depth_threshold_far = 80`, `depth_threshold_near = 30`,
`pixel_distance_threshold_reach = 150` (lines 262-264). -/
noncomputable def classify_instruction (target_object_name dir : String)
    (depth_difference hand_depth object_depth pix_dist : ℝ) : String :=
  if depth_difference ≥ 80 ∧ hand_depth < object_depth then
    "Move your hand forward towards the " ++ target_object_name ++
      ", which is " ++ dir ++ " of your hand."
  else if depth_difference ≤ 30 ∧ pix_dist ≤ 150 then
    "The " ++ target_object_name ++ " is within reach, " ++ dir ++ " of your hand."
  else
    "The " ++ target_object_name ++ " is " ++ dir ++ " of your hand."

/-- The embedded `hand_to_object_finder` (lines 154-279).  `cos_scores` is
`util.cos_sim(query_embedding, doc_embeddings)[0].tolist()` for the labels
of `detected_objects` (line 198); `hand_wrists` is the normalized wrist
coordinate of each entry of `hand_results.multi_hand_landmarks`.  Python's
`ranked_docs[0]` on an empty zip raises `IndexError`, landing in the
`except` block, hence the error string on `rankedHead = none`; likewise an
out-of-bounds depth-map access. -/
noncomputable def hand_to_object_finder (image_width image_height : ℕ)
    (yolo_boxes : List YoloBox) (cos_scores : List ℝ)
    (hand_wrists : List (ℝ × ℝ)) (depth_map : DepthMap)
    (query_text : String) : String :=
  if (detected_objects yolo_boxes).isEmpty then
    "No objects detected in the scene."
  else if ((detected_objects yolo_boxes).map (fun o => o.label)).isEmpty then
    "No non-person objects detected."
  else
    match rankedHead (cos_scores.zip (detected_objects yolo_boxes)) with
    | none => "Error finding the object relative to your hand."
    | some (best_score, best) =>
      if best_score < 0.3 then
        "I couldn't clearly identify a " ++ query_text ++ ". Objects detected: " ++
          String.intercalate ", " ((detected_objects yolo_boxes).map (fun o => o.label)) ++ "."
      else
        match hand_wrists with
        | [] => "I see a " ++ best.label ++ ", but I don't detect your hand."
        | wrist :: _ =>
          match depth_map.get (obj_center_y best) (obj_center_x best),
              depth_map.get (hand_pixel_y image_height wrist.2)
                (hand_pixel_x image_width wrist.1) with
          | some object_depth, some hand_depth =>
            classify_instruction best.label
              (directions.getD (final_angle_index
                  (obj_center_x best - hand_pixel_x image_width wrist.1)
                  (obj_center_y best - hand_pixel_y image_height wrist.2)).toNat "")
              |hand_depth - object_depth| hand_depth object_depth
              (pixel_distance
                  (obj_center_x best - hand_pixel_x image_width wrist.1)
                  (obj_center_y best - hand_pixel_y image_height wrist.2))
          | _, _ => "Error finding the object relative to your hand."

/-! Concrete test fixtures used by closed witness/counterexample theorems.
`cupBox` has center (400, 200); with a 640 x 480 frame and normalized wrist
(5/32, 5/12) the clamped hand pixel is (100, 200), the worked example of the
spec.  The depth maps differ only in the samples at columns 400 (object
center) and 100 (hand pixel). -/

def cupBox : YoloBox :=
  ⟨"cup", 0.9, 300, 150, 500, 250⟩

def personBox : YoloBox :=
  ⟨"person", 0.8, 10, 10, 20, 20⟩

/-- Bounding box with `x2 = image_width` (= 4): its center column 4 is out of
bounds for a 4-column depth map. -/
def oobBox : YoloBox :=
  ⟨"cup", 0.9, 4, 2, 4, 2⟩

/-- Box whose center coincides with the hand pixel in an 8 x 8 frame. -/
def coincBox : YoloBox :=
  ⟨"cup", 0.9, 2, 2, 2, 2⟩

noncomputable def trivialDepth : DepthMap :=
  ⟨4, 4, fun _ _ => 0⟩

/-- 480 x 640 depth map: object center depth 10, hand pixel depth 100. -/
noncomputable def depthObjFar : DepthMap :=
  ⟨480, 640, fun _ j => if j = 400 then 10 else if j = 100 then 100 else 0⟩

/-- 480 x 640 depth map: object center depth 100, hand pixel depth 10. -/
noncomputable def depthHandFar : DepthMap :=
  ⟨480, 640, fun _ j => if j = 400 then 100 else if j = 100 then 10 else 0⟩

/-- 480 x 640 depth map: object center depth 60, hand pixel depth 50. -/
noncomputable def depthNear : DepthMap :=
  ⟨480, 640, fun _ j => if j = 400 then 60 else if j = 100 then 50 else 0⟩

/-- 480 x 640 all-zero depth map. -/
noncomputable def depthFlat : DepthMap :=
  ⟨480, 640, fun _ _ => 0⟩

/-- 8 x 8 constant depth map. -/
noncomputable def depthConst8 : DepthMap :=
  ⟨8, 8, fun _ _ => 50⟩

/-! Helper lemmas evaluating the geometric primitives. -/

lemma atan2_zero_of_pos {x : ℝ} (hx : 0 < x) : atan2 0 x = 0 := by
  simp [atan2, hx]

lemma atan2_pos_zero {y : ℝ} (hy : 0 < y) : atan2 y 0 = Real.pi / 2 := by
  simp [atan2, hy, lt_irrefl]

lemma atan2_zero_zero : atan2 0 0 = 0 := by
  simp [atan2]

lemma pyRound_intCast (n : ℤ) : pyRound (n : ℝ) = n := by
  rw [pyRound, if_neg, round_intCast]
  rw [Int.fract_intCast]
  norm_num

lemma pyRound_zero : pyRound 0 = 0 := by
  simpa using pyRound_intCast 0

lemma pyRound_two : pyRound 2 = 2 := by
  simpa using pyRound_intCast 2

lemma final_angle_index_right {dx : ℤ} (h : 0 < dx) : final_angle_index dx 0 = 0 := by
  have hx : (0 : ℝ) < (dx : ℝ) := by exact_mod_cast h
  rw [final_angle_index]
  rw [show (((0 : ℤ) : ℝ)) = 0 from by norm_num, neg_zero, atan2_zero_of_pos hx,
    zero_div, pyRound_zero]
  decide

lemma final_angle_index_up {dy : ℤ} (h : dy < 0) : final_angle_index 0 dy = 2 := by
  have hy : (0 : ℝ) < -(dy : ℝ) := by
    have : (dy : ℝ) < 0 := by exact_mod_cast h
    linarith
  rw [final_angle_index]
  rw [show (((0 : ℤ) : ℝ)) = 0 from by norm_num, atan2_pos_zero hy]
  rw [show Real.pi / 2 / (Real.pi / 4) = 2 from by field_simp; ring, pyRound_two]
  decide

lemma final_angle_index_origin : final_angle_index 0 0 = 0 := by
  rw [final_angle_index]
  rw [show (((0 : ℤ) : ℝ)) = 0 from by norm_num, neg_zero, atan2_zero_zero,
    zero_div, pyRound_zero]
  decide

lemma pixel_distance_origin : pixel_distance 0 0 = 0 := by
  simp [pixel_distance]

lemma pixel_distance_horizontal {dx : ℤ} (h : 0 ≤ dx) :
    pixel_distance dx 0 = (dx : ℝ) := by
  rw [pixel_distance]
  rw [show (((0 : ℤ) : ℝ)) = 0 from by norm_num]
  rw [show ((dx : ℝ) ^ 2 + 0 ^ 2) = (dx : ℝ) ^ 2 from by ring]
  exact Real.sqrt_sq (by exact_mod_cast h)

lemma DepthMap.get_in_bounds {m : DepthMap} {i j : ℤ}
    (hi0 : 0 ≤ i) (hi1 : i < (m.rows : ℤ)) (hj0 : 0 ≤ j) (hj1 : j < (m.cols : ℤ)) :
    m.get i j = some (m.data i.toNat j.toNat) := by
  rw [DepthMap.get, if_pos ⟨hi0, hi1⟩, if_pos ⟨hj0, hj1⟩]

lemma hand_pixel_x_bounds {iw : ℕ} (hw : 0 < iw) (wx : ℝ) :
    0 ≤ hand_pixel_x iw wx ∧ hand_pixel_x iw wx < (iw : ℤ) := by
  unfold hand_pixel_x
  constructor
  · exact le_min (le_max_left 0 _) (by omega)
  · exact lt_of_le_of_lt (min_le_right _ _) (by omega)

lemma hand_pixel_y_bounds {ih : ℕ} (hh : 0 < ih) (wy : ℝ) :
    0 ≤ hand_pixel_y ih wy ∧ hand_pixel_y ih wy < (ih : ℤ) := by
  unfold hand_pixel_y
  constructor
  · exact le_min (le_max_left 0 _) (by omega)
  · exact lt_of_le_of_lt (min_le_right _ _) (by omega)

/-! Helper lemmas for the three branches of the final classification. -/

lemma classify_forward {t d : String} {dd hdep odep pd : ℝ}
    (h1 : dd ≥ 80) (h2 : hdep < odep) :
    classify_instruction t d dd hdep odep pd =
      "Move your hand forward towards the " ++ t ++ ", which is " ++ d ++
        " of your hand." := by
  rw [classify_instruction, if_pos ⟨h1, h2⟩]

lemma classify_reach {t d : String} {dd hdep odep pd : ℝ}
    (hnf : ¬(dd ≥ 80 ∧ hdep < odep)) (h1 : dd ≤ 30) (h2 : pd ≤ 150) :
    classify_instruction t d dd hdep odep pd =
      "The " ++ t ++ " is within reach, " ++ d ++ " of your hand." := by
  rw [classify_instruction, if_neg hnf, if_pos ⟨h1, h2⟩]

lemma classify_default {t d : String} {dd hdep odep pd : ℝ}
    (hnf : ¬(dd ≥ 80 ∧ hdep < odep)) (hnr : ¬(dd ≤ 30 ∧ pd ≤ 150)) :
    classify_instruction t d dd hdep odep pd =
      "The " ++ t ++ " is " ++ d ++ " of your hand." := by
  rw [classify_instruction, if_neg hnf, if_neg hnr]

/-! Helper lemmas reducing `hand_to_object_finder` stage by stage. -/

lemma rankedHead_ne_nil {l : List (ℝ × YoloBox)} {p : ℝ × YoloBox}
    (h : rankedHead l = some p) : l ≠ [] := by
  intro hl
  subst hl
  simp [rankedHead] at h

lemma detected_cons_of_rankedHead {boxes : List YoloBox} {scores : List ℝ}
    {p : ℝ × YoloBox}
    (h : rankedHead (scores.zip (detected_objects boxes)) = some p) :
    detected_objects boxes ≠ [] := by
  intro h0
  rw [h0, List.zip_nil_right] at h
  simp [rankedHead] at h

lemma finder_no_objects {boxes : List YoloBox}
    (hp : detected_objects boxes = []) (iw ih : ℕ) (scores : List ℝ)
    (wrists : List (ℝ × ℝ)) (dm : DepthMap) (q : String) :
    hand_to_object_finder iw ih boxes scores wrists dm q =
      "No objects detected in the scene." := by
  rw [hand_to_object_finder, hp]
  simp

lemma finder_low_confidence {boxes : List YoloBox} {scores : List ℝ}
    {s : ℝ} {b : YoloBox}
    (hrank : rankedHead (scores.zip (detected_objects boxes)) = some (s, b))
    (hs : s < 0.3) (iw ih : ℕ) (wrists : List (ℝ × ℝ)) (dm : DepthMap)
    (q : String) :
    hand_to_object_finder iw ih boxes scores wrists dm q =
      "I couldn't clearly identify a " ++ q ++ ". Objects detected: " ++
        String.intercalate ", "
          ((detected_objects boxes).map (fun o => o.label)) ++ "." := by
  have hne := detected_cons_of_rankedHead hrank
  rw [hand_to_object_finder]
  cases hds : detected_objects boxes with
  | nil => exact absurd hds hne
  | cons d ds =>
    rw [← hds, hrank]
    simp only [hds, List.isEmpty_cons, List.map_cons, Bool.false_eq_true,
      if_false, if_pos hs]

lemma finder_no_hand {boxes : List YoloBox} {scores : List ℝ}
    {s : ℝ} {b : YoloBox}
    (hrank : rankedHead (scores.zip (detected_objects boxes)) = some (s, b))
    (hs : ¬s < 0.3) (iw ih : ℕ) (dm : DepthMap) (q : String) :
    hand_to_object_finder iw ih boxes scores [] dm q =
      "I see a " ++ b.label ++ ", but I don't detect your hand." := by
  have hne := detected_cons_of_rankedHead hrank
  rw [hand_to_object_finder]
  cases hds : detected_objects boxes with
  | nil => exact absurd hds hne
  | cons d ds =>
    rw [← hds, hrank]
    simp only [hds, List.isEmpty_cons, List.map_cons, Bool.false_eq_true,
      if_false, if_neg hs]

lemma finder_geometry {boxes : List YoloBox} {scores : List ℝ} {s : ℝ}
    {b : YoloBox} {iw ih : ℕ} {wx wy : ℝ} {rest : List (ℝ × ℝ)}
    {dm : DepthMap} {odep hdep : ℝ}
    (hrank : rankedHead (scores.zip (detected_objects boxes)) = some (s, b))
    (hs : ¬s < 0.3)
    (hod : dm.get (obj_center_y b) (obj_center_x b) = some odep)
    (hhd : dm.get (hand_pixel_y ih wy) (hand_pixel_x iw wx) = some hdep)
    (q : String) :
    hand_to_object_finder iw ih boxes scores ((wx, wy) :: rest) dm q =
      classify_instruction b.label
        (directions.getD (final_angle_index
            (obj_center_x b - hand_pixel_x iw wx)
            (obj_center_y b - hand_pixel_y ih wy)).toNat "")
        |hdep - odep| hdep odep
        (pixel_distance (obj_center_x b - hand_pixel_x iw wx)
          (obj_center_y b - hand_pixel_y ih wy)) := by
  have hne := detected_cons_of_rankedHead hrank
  rw [hand_to_object_finder]
  cases hds : detected_objects boxes with
  | nil => exact absurd hds hne
  | cons d ds =>
    rw [← hds, hrank]
    simp only [hds, List.isEmpty_cons, List.map_cons, Bool.false_eq_true,
      if_false, if_neg hs]
    rw [hod, hhd]

lemma finder_object_depth_error {boxes : List YoloBox} {scores : List ℝ}
    {s : ℝ} {b : YoloBox} {iw ih : ℕ} {wx wy : ℝ} {rest : List (ℝ × ℝ)}
    {dm : DepthMap}
    (hrank : rankedHead (scores.zip (detected_objects boxes)) = some (s, b))
    (hs : ¬s < 0.3)
    (herr : dm.get (obj_center_y b) (obj_center_x b) = none) (q : String) :
    hand_to_object_finder iw ih boxes scores ((wx, wy) :: rest) dm q =
      "Error finding the object relative to your hand." := by
  have hne := detected_cons_of_rankedHead hrank
  rw [hand_to_object_finder]
  cases hds : detected_objects boxes with
  | nil => exact absurd hds hne
  | cons d ds =>
    rw [← hds, hrank]
    simp only [hds, List.isEmpty_cons, List.map_cons, Bool.false_eq_true,
      if_false, if_neg hs]
    rw [herr]

/-! Evaluation of the worked 640 x 480 scenario: wrist (5/32, 5/12) lands on
pixel (100, 200), `cupBox`'s center is (400, 200), so dx = 300, dy = 0. -/

lemma hand_pixel_x_eval : hand_pixel_x 640 ((5 : ℝ) / 32) = 100 := by
  rw [hand_pixel_x, truncInt, if_pos (by norm_num)]
  rw [show ((5 : ℝ) / 32 * ((640 : ℕ) : ℝ)) = ((100 : ℤ) : ℝ) from by norm_num]
  rw [Int.floor_intCast]
  decide

lemma hand_pixel_y_eval : hand_pixel_y 480 ((5 : ℝ) / 12) = 200 := by
  rw [hand_pixel_y, truncInt, if_pos (by norm_num)]
  rw [show ((5 : ℝ) / 12 * ((480 : ℕ) : ℝ)) = ((200 : ℤ) : ℝ) from by norm_num]
  rw [Int.floor_intCast]
  decide

lemma cup_dx : obj_center_x cupBox - hand_pixel_x 640 ((5 : ℝ) / 32) = 300 := by
  rw [hand_pixel_x_eval]
  decide

lemma cup_dy : obj_center_y cupBox - hand_pixel_y 480 ((5 : ℝ) / 12) = 0 := by
  rw [hand_pixel_y_eval]
  decide

lemma cup_dir :
    directions.getD (final_angle_index
      (obj_center_x cupBox - hand_pixel_x 640 ((5 : ℝ) / 32))
      (obj_center_y cupBox - hand_pixel_y 480 ((5 : ℝ) / 12))).toNat "" =
      "directly right" := by
  rw [cup_dx, cup_dy, final_angle_index_right (by norm_num)]
  rfl

lemma cup_dist :
    pixel_distance (obj_center_x cupBox - hand_pixel_x 640 ((5 : ℝ) / 32))
      (obj_center_y cupBox - hand_pixel_y 480 ((5 : ℝ) / 12)) = 300 := by
  rw [cup_dx, cup_dy, pixel_distance_horizontal (by norm_num)]
  norm_num

lemma detected_objects_cup : detected_objects [cupBox] = [cupBox] := by
  rw [detected_objects, List.filter_cons, List.filter_nil, if_pos]
  decide

lemma cup_rankedHead :
    rankedHead ([(0.9 : ℝ)].zip (detected_objects [cupBox])) =
      some ((0.9 : ℝ), cupBox) := by
  rw [detected_objects_cup]
  rfl

lemma depthObjFar_obj :
    depthObjFar.get (obj_center_y cupBox) (obj_center_x cupBox) = some 10 := rfl

lemma depthObjFar_hand :
    depthObjFar.get (hand_pixel_y 480 ((5 : ℝ) / 12))
      (hand_pixel_x 640 ((5 : ℝ) / 32)) = some 100 := by
  rw [hand_pixel_y_eval, hand_pixel_x_eval]
  rfl

lemma depthHandFar_obj :
    depthHandFar.get (obj_center_y cupBox) (obj_center_x cupBox) = some 100 := rfl

lemma depthHandFar_hand :
    depthHandFar.get (hand_pixel_y 480 ((5 : ℝ) / 12))
      (hand_pixel_x 640 ((5 : ℝ) / 32)) = some 10 := by
  rw [hand_pixel_y_eval, hand_pixel_x_eval]
  rfl

lemma depthNear_obj :
    depthNear.get (obj_center_y cupBox) (obj_center_x cupBox) = some 60 := rfl

lemma depthNear_hand :
    depthNear.get (hand_pixel_y 480 ((5 : ℝ) / 12))
      (hand_pixel_x 640 ((5 : ℝ) / 32)) = some 50 := by
  rw [hand_pixel_y_eval, hand_pixel_x_eval]
  rfl

/-! Evaluation of the 8 x 8 coincident scenario: wrist (3/10, 3/10) lands on
pixel (2, 2) = `coincBox`'s center. -/

lemma hand_pixel_x8_eval : hand_pixel_x 8 ((3 : ℝ) / 10) = 2 := by
  rw [hand_pixel_x, truncInt, if_pos (by norm_num)]
  rw [show ((3 : ℝ) / 10 * ((8 : ℕ) : ℝ)) = 12 / 5 from by norm_num]
  rw [show ⌊(12 / 5 : ℝ)⌋ = 2 from by rw [Int.floor_eq_iff]; norm_num]
  decide

lemma hand_pixel_y8_eval : hand_pixel_y 8 ((3 : ℝ) / 10) = 2 := by
  rw [hand_pixel_y, truncInt, if_pos (by norm_num)]
  rw [show ((3 : ℝ) / 10 * ((8 : ℕ) : ℝ)) = 12 / 5 from by norm_num]
  rw [show ⌊(12 / 5 : ℝ)⌋ = 2 from by rw [Int.floor_eq_iff]; norm_num]
  decide

lemma detected_objects_coinc : detected_objects [coincBox] = [coincBox] := by
  rw [detected_objects, List.filter_cons, List.filter_nil, if_pos]
  decide

lemma coinc_rankedHead :
    rankedHead ([(0.9 : ℝ)].zip (detected_objects [coincBox])) =
      some ((0.9 : ℝ), coincBox) := by
  rw [detected_objects_coinc]
  rfl

lemma depthConst8_obj :
    depthConst8.get (obj_center_y coincBox) (obj_center_x coincBox) =
      some 50 := rfl

lemma depthConst8_hand :
    depthConst8.get (hand_pixel_y 8 ((3 : ℝ) / 10))
      (hand_pixel_x 8 ((3 : ℝ) / 10)) = some 50 := by
  rw [hand_pixel_y8_eval, hand_pixel_x8_eval]
  rfl

lemma detected_objects_oob : detected_objects [oobBox] = [oobBox] := by
  rw [detected_objects, List.filter_cons, List.filter_nil, if_pos]
  decide

lemma trivialDepth_oob :
    trivialDepth.get (obj_center_y oobBox) (obj_center_x oobBox) = none := rfl

lemma oob_rankedHead :
    rankedHead ([(0.9 : ℝ)].zip (detected_objects [oobBox])) =
      some ((0.9 : ℝ), oobBox) := by
  rw [detected_objects_oob]
  rfl

/-! The claims. -/

/-- C2: the direction label is the 8-way compass list indexed by
`round(atan2(-dy, dx) / (pi/4)) mod 8`, index 0 = "directly right",
counter-clockwise; in particular dx > 0, dy = 0 gives "directly right" and
dx = 0, dy < 0 (image coordinates) gives "directly up". -/
theorem C2_direction_buckets :
    (∀ dx dy : ℤ, 0 < dx → dy = 0 →
      directions.getD (final_angle_index dx dy).toNat "" = "directly right") ∧
    (∀ dx dy : ℤ, dx = 0 → dy < 0 →
      directions.getD (final_angle_index dx dy).toNat "" = "directly up") := by
  constructor
  · intro dx dy hdx hdy
    subst hdy
    rw [final_angle_index_right hdx]
    rfl
  · intro dx dy hdx hdy
    subst hdx
    rw [final_angle_index_up hdy]
    rfl

/-- C2 witness: concrete inputs for both bucket facts. -/
theorem C2_direction_buckets_witness :
    directions.getD (final_angle_index 5 0).toNat "" = "directly right" ∧
    directions.getD (final_angle_index 0 (-3)).toNat "" = "directly up" :=
  ⟨C2_direction_buckets.1 5 0 (by norm_num) rfl,
   C2_direction_buckets.2 0 (-3) rfl (by norm_num)⟩

/-- C4: when the top similarity score is below 0.3 the function returns the
could-not-identify message listing the retained labels, whatever the hand
list and depth map are (it never reaches hand acquisition, geometry or depth
classification). -/
theorem C4_low_confidence_gate {boxes : List YoloBox} {scores : List ℝ}
    {s : ℝ} {b : YoloBox}
    (hrank : rankedHead (scores.zip (detected_objects boxes)) = some (s, b))
    (hs : s < 0.3) (iw ih : ℕ) (wrists : List (ℝ × ℝ)) (dm : DepthMap)
    (q : String) :
    hand_to_object_finder iw ih boxes scores wrists dm q =
      "I couldn't clearly identify a " ++ q ++ ". Objects detected: " ++
        String.intercalate ", "
          ((detected_objects boxes).map (fun o => o.label)) ++ "." :=
  finder_low_confidence hrank hs iw ih wrists dm q

/-- C4 witness: a cup detection scored 0.1 against the query "water bottle". -/
theorem C4_low_confidence_gate_witness :
    hand_to_object_finder 640 480 [cupBox] [(0.1 : ℝ)]
        [((5 : ℝ) / 32, (5 : ℝ) / 12)] depthFlat "water bottle" =
      "I couldn't clearly identify a water bottle. Objects detected: cup." := by
  have hrank : rankedHead ([(0.1 : ℝ)].zip (detected_objects [cupBox])) =
      some ((0.1 : ℝ), cupBox) := by
    rw [detected_objects_cup]
    rfl
  rw [C4_low_confidence_gate hrank (by norm_num) 640 480 _ depthFlat _]
  rw [detected_objects_cup]
  rfl

/-- C5: a frame whose detections are all person-labeled (the empty frame
included) yields the no-objects outcome for every query and every other
model output, and a person-labeled detection never survives the filter, so
it is never selected as the target. -/
theorem C5_person_only_no_objects :
    (∀ boxes : List YoloBox, (∀ b ∈ boxes, lowerAscii b.label = "person") →
      detected_objects boxes = [] ∧
        ∀ (iw ih : ℕ) (scores : List ℝ) (wrists : List (ℝ × ℝ))
          (dm : DepthMap) (q : String),
          hand_to_object_finder iw ih boxes scores wrists dm q =
            "No objects detected in the scene.") ∧
    (∀ (boxes : List YoloBox) (b : YoloBox), b ∈ detected_objects boxes →
      lowerAscii b.label ≠ "person") := by
  constructor
  · intro boxes hall
    have hp : detected_objects boxes = [] := by
      rw [detected_objects, List.filter_eq_nil_iff]
      intro b hb
      simp [hall b hb]
    exact ⟨hp, fun iw ih scores wrists dm q =>
      finder_no_objects hp iw ih scores wrists dm q⟩
  · intro boxes b hb
    rw [detected_objects] at hb
    have := (List.mem_filter.mp hb).2
    simpa using this

/-- C5 witness: a single person detection. -/
theorem C5_person_only_no_objects_witness :
    hand_to_object_finder 4 4 [personBox] [(0.9 : ℝ)] [] trivialDepth "cup" =
      "No objects detected in the scene." :=
  (C5_person_only_no_objects.1 [personBox] (by
      intro b hb
      rw [List.mem_singleton] at hb
      subst hb
      decide)).2 4 4 [(0.9 : ℝ)] [] trivialDepth "cup"

/-- C6: target found (gate passed) but the hand-pose list is empty: the
result is the message naming the found target label. -/
theorem C6_no_hand_named_target {boxes : List YoloBox} {scores : List ℝ}
    {s : ℝ} {b : YoloBox}
    (hrank : rankedHead (scores.zip (detected_objects boxes)) = some (s, b))
    (hs : ¬s < 0.3) (iw ih : ℕ) (dm : DepthMap) (q : String) :
    hand_to_object_finder iw ih boxes scores [] dm q =
      "I see a " ++ b.label ++ ", but I don't detect your hand." :=
  finder_no_hand hrank hs iw ih dm q

/-- C6 witness: a cup scored 0.9, no hands. -/
theorem C6_no_hand_named_target_witness :
    hand_to_object_finder 640 480 [cupBox] [(0.9 : ℝ)] [] depthFlat "cup" =
      "I see a cup, but I don't detect your hand." := by
  rw [C6_no_hand_named_target cup_rankedHead (by norm_num) 640 480 depthFlat "cup"]
  rfl

/-- C7: the embedded function is a pure function of the frame data, the
query and the collaborator model outputs: two calls on equal inputs return
equal results (no state persists across invocations). -/
theorem C7_deterministic (iw ih : ℕ) (boxes : List YoloBox) (scores : List ℝ)
    (wrists : List (ℝ × ℝ)) (dm : DepthMap) (q : String)
    (iw' ih' : ℕ) (boxes' : List YoloBox) (scores' : List ℝ)
    (wrists' : List (ℝ × ℝ)) (dm' : DepthMap) (q' : String)
    (h1 : iw = iw') (h2 : ih = ih') (h3 : boxes = boxes')
    (h4 : scores = scores') (h5 : wrists = wrists') (h6 : dm = dm')
    (h7 : q = q') :
    hand_to_object_finder iw ih boxes scores wrists dm q =
      hand_to_object_finder iw' ih' boxes' scores' wrists' dm' q' := by
  subst h1 h2 h3 h4 h5 h6 h7
  rfl

/-- C7 witness: two identical concrete invocations. -/
theorem C7_deterministic_witness :
    hand_to_object_finder 4 4 [personBox] [] [] trivialDepth "cup" =
      hand_to_object_finder 4 4 [personBox] [] [] trivialDepth "cup" :=
  C7_deterministic 4 4 [personBox] [] [] trivialDepth "cup"
    4 4 [personBox] [] [] trivialDepth "cup" rfl rfl rfl rfl rfl rfl rfl

/-- C8: whatever the normalized wrist coordinate is (also outside [0,1]),
the hand pixel is clamped to [0, width-1] x [0, height-1], and the depth-map
sample at the hand pixel is in bounds for a depth map of the frame's
dimensions. -/
theorem C8_hand_pixel_clamped {iw ih : ℕ} (hw : 0 < iw) (hh : 0 < ih)
    (wx wy : ℝ) (dm : DepthMap) (hr : dm.rows = ih) (hc : dm.cols = iw) :
    0 ≤ hand_pixel_x iw wx ∧ hand_pixel_x iw wx ≤ (iw : ℤ) - 1 ∧
      0 ≤ hand_pixel_y ih wy ∧ hand_pixel_y ih wy ≤ (ih : ℤ) - 1 ∧
      (dm.get (hand_pixel_y ih wy) (hand_pixel_x iw wx)).isSome = true := by
  obtain ⟨hx0, hx1⟩ := hand_pixel_x_bounds hw wx
  obtain ⟨hy0, hy1⟩ := hand_pixel_y_bounds hh wy
  refine ⟨hx0, by omega, hy0, by omega, ?_⟩
  rw [DepthMap.get_in_bounds hy0 (by rw [hr]; exact hy1) hx0
    (by rw [hc]; exact hx1)]
  rfl

/-- C8 witness: wrist normalized coordinates 2.5 and -3, far outside [0,1],
on a 4 x 4 frame. -/
theorem C8_hand_pixel_clamped_witness :
    0 ≤ hand_pixel_x 4 ((5 : ℝ) / 2) ∧
      hand_pixel_x 4 ((5 : ℝ) / 2) ≤ ((4 : ℕ) : ℤ) - 1 ∧
      0 ≤ hand_pixel_y 4 (-(3 : ℝ)) ∧
      hand_pixel_y 4 (-(3 : ℝ)) ≤ ((4 : ℕ) : ℤ) - 1 ∧
      (trivialDepth.get (hand_pixel_y 4 (-(3 : ℝ)))
        (hand_pixel_x 4 ((5 : ℝ) / 2))).isSome = true :=
  C8_hand_pixel_clamped (by norm_num) (by norm_num) ((5 : ℝ) / 2) (-(3 : ℝ))
    trivialDepth rfl rfl

/-- C1 counterexample: object depth 10, hand depth 100, depth delta 90 ≥ 80:
the object is farther from the camera than the hand under the model's
larger-value-means-closer convention (objectDepth < handDepth, the claim's
trigger), yet the function returns the default instruction, not the
move-forward one — the code's guard (main.py line 266) is
`hand_depth < object_depth`, the opposite inequality. -/
theorem C1_counterexample :
    ((10 : ℝ) < 100 ∧ |(100 : ℝ) - 10| ≥ 80) ∧
      hand_to_object_finder 640 480 [cupBox] [(0.9 : ℝ)]
          [((5 : ℝ) / 32, (5 : ℝ) / 12)] depthObjFar "cup" =
        "The cup is directly right of your hand." ∧
      "The cup is directly right of your hand." ≠
        "Move your hand forward towards the cup, which is directly right of your hand." := by
  refine ⟨⟨by norm_num, ?_⟩, ?_, by decide⟩
  · rw [show |(100 : ℝ) - 10| = 90 from by rw [abs_of_nonneg] <;> norm_num]
    norm_num
  · rw [finder_geometry cup_rankedHead (by norm_num) depthObjFar_obj
      depthObjFar_hand, cup_dist]
    rw [classify_default (fun hc => absurd hc.2 (by norm_num))
      (fun hc => absurd hc.2 (by norm_num)), cup_dir]
    rfl

/-- C1 (amended): with the depth relation as the code has it — the
move-forward branch fires when depthDelta ≥ 80 and handDepth < objectDepth
(main.py line 266), i.e. when the hand, not the object, is the farther one
under the larger-value-means-closer convention — the function returns the
move-forward instruction regardless of pixel distance. -/
theorem C1_move_forward_amended {boxes : List YoloBox} {scores : List ℝ}
    {s : ℝ} {b : YoloBox} {iw ih : ℕ} {wx wy : ℝ} {rest : List (ℝ × ℝ)}
    {dm : DepthMap} {odep hdep : ℝ}
    (hrank : rankedHead (scores.zip (detected_objects boxes)) = some (s, b))
    (hs : ¬s < 0.3)
    (hod : dm.get (obj_center_y b) (obj_center_x b) = some odep)
    (hhd : dm.get (hand_pixel_y ih wy) (hand_pixel_x iw wx) = some hdep)
    (hfar : |hdep - odep| ≥ 80) (hrel : hdep < odep) (q : String) :
    hand_to_object_finder iw ih boxes scores ((wx, wy) :: rest) dm q =
      "Move your hand forward towards the " ++ b.label ++ ", which is " ++
        directions.getD (final_angle_index (obj_center_x b - hand_pixel_x iw wx)
          (obj_center_y b - hand_pixel_y ih wy)).toNat "" ++ " of your hand." := by
  rw [finder_geometry hrank hs hod hhd, classify_forward hfar hrel]

/-- C1 amended witness: hand depth 10 < object depth 100, delta 90 ≥ 80. -/
theorem C1_move_forward_amended_witness :
    hand_to_object_finder 640 480 [cupBox] [(0.9 : ℝ)]
        [((5 : ℝ) / 32, (5 : ℝ) / 12)] depthHandFar "cup" =
      "Move your hand forward towards the cup, which is directly right of your hand." := by
  rw [C1_move_forward_amended cup_rankedHead (by norm_num) depthHandFar_obj
    depthHandFar_hand
    (by rw [show |(10 : ℝ) - 100| = 90 from by rw [abs_of_nonpos] <;> norm_num]
        norm_num)
    (by norm_num) "cup", cup_dir]
  rfl

/-- C3: when the move-forward condition does not hold, depthDelta ≤ 30
together with pixelDistance ≤ 150 gives the within-reach instruction, and
otherwise the default instruction. -/
theorem C3_reach_or_default {boxes : List YoloBox} {scores : List ℝ}
    {s : ℝ} {b : YoloBox} {iw ih : ℕ} {wx wy : ℝ} {rest : List (ℝ × ℝ)}
    {dm : DepthMap} {odep hdep : ℝ}
    (hrank : rankedHead (scores.zip (detected_objects boxes)) = some (s, b))
    (hs : ¬s < 0.3)
    (hod : dm.get (obj_center_y b) (obj_center_x b) = some odep)
    (hhd : dm.get (hand_pixel_y ih wy) (hand_pixel_x iw wx) = some hdep)
    (hnf : ¬(|hdep - odep| ≥ 80 ∧ hdep < odep)) (q : String) :
    (|hdep - odep| ≤ 30 ∧
        pixel_distance (obj_center_x b - hand_pixel_x iw wx)
          (obj_center_y b - hand_pixel_y ih wy) ≤ 150 →
      hand_to_object_finder iw ih boxes scores ((wx, wy) :: rest) dm q =
        "The " ++ b.label ++ " is within reach, " ++
          directions.getD (final_angle_index (obj_center_x b - hand_pixel_x iw wx)
            (obj_center_y b - hand_pixel_y ih wy)).toNat "" ++ " of your hand.") ∧
    (¬(|hdep - odep| ≤ 30 ∧
        pixel_distance (obj_center_x b - hand_pixel_x iw wx)
          (obj_center_y b - hand_pixel_y ih wy) ≤ 150) →
      hand_to_object_finder iw ih boxes scores ((wx, wy) :: rest) dm q =
        "The " ++ b.label ++ " is " ++
          directions.getD (final_angle_index (obj_center_x b - hand_pixel_x iw wx)
            (obj_center_y b - hand_pixel_y ih wy)).toNat "" ++ " of your hand.") := by
  constructor
  · intro hr
    rw [finder_geometry hrank hs hod hhd, classify_reach hnf hr.1 hr.2]
  · intro hr
    rw [finder_geometry hrank hs hod hhd, classify_default hnf hr]

/-- C3 witness: the spec's worked example — object center (400, 200), hand
pixel (100, 200), depth delta 10 ≤ 30, but pixel distance 300 > 150, so the
default instruction is returned. -/
theorem C3_reach_or_default_witness :
    hand_to_object_finder 640 480 [cupBox] [(0.9 : ℝ)]
        [((5 : ℝ) / 32, (5 : ℝ) / 12)] depthNear "cup" =
      "The cup is directly right of your hand." := by
  rw [(C3_reach_or_default cup_rankedHead (by norm_num) depthNear_obj
      depthNear_hand
      (fun hc => absurd hc.1 (by
        rw [show |(50 : ℝ) - 60| = 10 from by rw [abs_of_nonpos] <;> norm_num]
        norm_num)) "cup").2
    (fun hc => absurd (by rw [cup_dist] at hc; exact hc.2) (by norm_num)),
    cup_dir]
  rfl

/-- C9: when the hand pixel and the target box center coincide the pixel
distance is 0 and the direction index is 0 ("directly right", the
atan2(0,0) = 0 convention); with depth delta ≤ 30 (which also rules the
move-forward branch out) the result is the within-reach instruction. -/
theorem C9_coincident_within_reach {boxes : List YoloBox} {scores : List ℝ}
    {s : ℝ} {b : YoloBox} {iw ih : ℕ} {wx wy : ℝ} {rest : List (ℝ × ℝ)}
    {dm : DepthMap} {odep hdep : ℝ}
    (hrank : rankedHead (scores.zip (detected_objects boxes)) = some (s, b))
    (hs : ¬s < 0.3)
    (hod : dm.get (obj_center_y b) (obj_center_x b) = some odep)
    (hhd : dm.get (hand_pixel_y ih wy) (hand_pixel_x iw wx) = some hdep)
    (hcx : obj_center_x b = hand_pixel_x iw wx)
    (hcy : obj_center_y b = hand_pixel_y ih wy)
    (hnear : |hdep - odep| ≤ 30) (q : String) :
    pixel_distance (obj_center_x b - hand_pixel_x iw wx)
        (obj_center_y b - hand_pixel_y ih wy) = 0 ∧
    final_angle_index (obj_center_x b - hand_pixel_x iw wx)
        (obj_center_y b - hand_pixel_y ih wy) = 0 ∧
    hand_to_object_finder iw ih boxes scores ((wx, wy) :: rest) dm q =
      "The " ++ b.label ++ " is within reach, directly right of your hand." := by
  have hdx : obj_center_x b - hand_pixel_x iw wx = 0 := by omega
  have hdy : obj_center_y b - hand_pixel_y ih wy = 0 := by omega
  refine ⟨by rw [hdx, hdy, pixel_distance_origin],
    by rw [hdx, hdy, final_angle_index_origin], ?_⟩
  have hnf : ¬(|hdep - odep| ≥ 80 ∧ hdep < odep) := fun hc => by
    have := hc.1
    linarith
  rw [finder_geometry hrank hs hod hhd, hdx, hdy]
  rw [classify_reach hnf hnear (by rw [pixel_distance_origin]; norm_num)]
  rw [final_angle_index_origin]
  rw [String.append_assoc, String.append_assoc, String.append_assoc]
  rfl

/-- C9 witness: box (2,2,2,2) in an 8 x 8 frame, wrist (3/10, 3/10), both
depths 50. -/
theorem C9_coincident_within_reach_witness :
    pixel_distance (obj_center_x coincBox - hand_pixel_x 8 ((3 : ℝ) / 10))
        (obj_center_y coincBox - hand_pixel_y 8 ((3 : ℝ) / 10)) = 0 ∧
    final_angle_index (obj_center_x coincBox - hand_pixel_x 8 ((3 : ℝ) / 10))
        (obj_center_y coincBox - hand_pixel_y 8 ((3 : ℝ) / 10)) = 0 ∧
    hand_to_object_finder 8 8 [coincBox] [(0.9 : ℝ)]
        [((3 : ℝ) / 10, (3 : ℝ) / 10)] depthConst8 "cup" =
      "The " ++ coincBox.label ++ " is within reach, directly right of your hand." :=
  C9_coincident_within_reach coinc_rankedHead (by norm_num) depthConst8_obj
    depthConst8_hand (by rw [hand_pixel_x8_eval]; decide)
    (by rw [hand_pixel_y8_eval]; decide)
    (by rw [show |(50 : ℝ) - 50| = 0 from by norm_num]; norm_num) "cup"

/-- C10: the object center ((x1+x2)//2, (y1+y2)//2) is an in-bounds depth
index whenever the box lies inside the frame; without that precondition
(x2 = width = 4 here) the access is out of bounds and the call returns the
generic error string. -/
theorem C10_object_center_bounds :
    (∀ (b : YoloBox) (iw ih : ℕ) (dm : DepthMap), dm.rows = ih → dm.cols = iw →
      0 ≤ b.x1 → b.x1 ≤ b.x2 → b.x2 ≤ (iw : ℤ) - 1 →
      0 ≤ b.y1 → b.y1 ≤ b.y2 → b.y2 ≤ (ih : ℤ) - 1 →
      (dm.get (obj_center_y b) (obj_center_x b)).isSome = true) ∧
    hand_to_object_finder 4 4 [oobBox] [(0.9 : ℝ)] [((0 : ℝ), (0 : ℝ))]
        trivialDepth "cup" =
      "Error finding the object relative to your hand." := by
  constructor
  · intro b iw ih dm hr hc hx0 hx1 hx2 hy0 hy1 hy2
    have hxb : 0 ≤ obj_center_x b ∧ obj_center_x b < (iw : ℤ) := by
      rw [obj_center_x, Int.fdiv_eq_ediv _ (by norm_num)]
      omega
    have hyb : 0 ≤ obj_center_y b ∧ obj_center_y b < (ih : ℤ) := by
      rw [obj_center_y, Int.fdiv_eq_ediv _ (by norm_num)]
      omega
    rw [DepthMap.get_in_bounds hyb.1 (by rw [hr]; exact hyb.2) hxb.1
      (by rw [hc]; exact hxb.2)]
    rfl
  · rw [finder_object_depth_error oob_rankedHead (by norm_num) trivialDepth_oob "cup"]

/-- C10 witness: `cupBox` inside a 640 x 480 frame. -/
theorem C10_object_center_bounds_witness :
    (depthFlat.get (obj_center_y cupBox) (obj_center_x cupBox)).isSome = true :=
  C10_object_center_bounds.1 cupBox 640 480 depthFlat rfl rfl (by decide)
    (by decide) (by decide) (by decide) (by decide) (by decide)

end Spectra
